import Mathlib

/-!
Verification of the IEE-305 earthquake analytics backend.

The definitions below are a shallow embedding of the Python source:
`fetch_data.py` (classifiers, seeding, loader), `queries.py` (the ten
read queries) and `main.py` (the HTTP endpoint handlers).  Coordinates
and magnitudes are modelled as rationals, database tables as lists of
rows, and HTTP 404 responses as an explicit `notFound` constructor.
-/

namespace Earthquakes

/-! ### Classifier (`fetch_data.py`, `classify_region` / `classify_zone`) -/

/-- Longitude normalization step of `classify_region`:
`if lon > 180: lon -= 360`. -/
def normalizeLon (lon : ℚ) : ℚ :=
  if lon > 180 then lon - 360 else lon

/-- The ordered bounding-box chain of `classify_region`, applied after
longitude normalization. -/
def classifyRegionCore (lat lon : ℚ) : ℕ :=
  if 30 ≤ lat ∧ lat ≤ 42 ∧ -130 ≤ lon ∧ lon ≤ -110 then 1
  else if 50 ≤ lat ∧ lat ≤ 72 ∧ -180 ≤ lon ∧ lon ≤ -130 then 2
  else if 30 ≤ lat ∧ lat ≤ 65 ∧ 135 ≤ lon ∧ lon ≤ 170 then 3
  else if -60 ≤ lat ∧ lat ≤ -15 ∧ -80 ≤ lon ∧ lon ≤ -65 then 4
  else if -15 ≤ lat ∧ lat ≤ 15 ∧ 95 ≤ lon ∧ lon ≤ 155 then 5
  else if -60 ≤ lat ∧ lat ≤ -10 ∧
      ((155 ≤ lon ∧ lon ≤ 180) ∨ (-180 ≤ lon ∧ lon ≤ -160)) then 6
  else if 30 ≤ lat ∧ lat ≤ 46 ∧ -10 ≤ lon ∧ lon ≤ 40 then 7
  else if 20 ≤ lat ∧ lat ≤ 45 ∧ 60 ≤ lon ∧ lon ≤ 115 then 8
  else if -40 ≤ lat ∧ lat ≤ 70 ∧ -50 ≤ lon ∧ lon ≤ -10 then 9
  else 10

/-- `classify_region(lat, lon)`: normalize longitude, then first-match
over the ordered region boxes, catch-all id 10. -/
def classify_region (lat lon : ℚ) : ℕ :=
  classifyRegionCore lat (normalizeLon lon)

/-- `classify_zone(lat, lon)`: first-match over the ordered zone boxes,
catch-all id 10.  Note: no longitude normalization in the source. -/
def classify_zone (lat lon : ℚ) : ℕ :=
  if 30 ≤ lat ∧ lat ≤ 72.5 ∧ -150 ≤ lon ∧ lon ≤ -110 then 1
  else if 30 ≤ lat ∧ lat ≤ 50 ∧ 130 ≤ lon ∧ lon ≤ 160 then 2
  else if -60 ≤ lat ∧ lat ≤ 5 ∧ -90 ≤ lon ∧ lon ≤ -60 then 3
  else if -15 ≤ lat ∧ lat ≤ 10 ∧ 90 ≤ lon ∧ lon ≤ 150 then 4
  else if -50 ≤ lat ∧ lat ≤ -30 ∧ 160 ≤ lon ∧ lon ≤ 180 then 5
  else if 25 ≤ lat ∧ lat ≤ 50 ∧ -10 ≤ lon ∧ lon ≤ 40 then 6
  else if 20 ≤ lat ∧ lat ≤ 40 ∧ 70 ≤ lon ∧ lon ≤ 100 then 7
  else if -60 ≤ lat ∧ lat ≤ 60 ∧ -40 ≤ lon ∧ lon ≤ -10 then 8
  else if 45 ≤ lat ∧ lat ≤ 60 ∧ 145 ≤ lon ∧ lon ≤ 175 then 9
  else 10

/-- The pre-seeded id space shared by `Region` and `SeismicZone`. -/
def seededIds : Finset ℕ := Finset.Icc 1 10

/-! ### Data model (`models.py`) -/

/-- A row of the `Region` table. -/
structure RegionRow where
  region_id : ℕ
  region_name : String
  country : String
  population : Option ℕ
deriving DecidableEq

/-- A row of the `SeismicZone` table. -/
structure ZoneRow where
  zone_id : ℕ
  zone_name : String
  risk_level : ℕ
deriving DecidableEq

/-- A row of the `Earthquake` table. -/
structure QuakeRow where
  quake_id : ℕ
  datetime : String
  magnitude : ℚ
  depth_km : ℚ
  latitude : ℚ
  longitude : ℚ
  place : String
  region_id : ℕ
  zone_id : ℕ
deriving DecidableEq

/-- The relational store: the three tables of the schema. -/
structure Store where
  regions : List RegionRow
  zones : List ZoneRow
  quakes : List QuakeRow
deriving DecidableEq

/-- Number of `Earthquake` rows carrying a given `region_id`. -/
def regionQuakeCount (s : Store) (rid : ℕ) : ℕ :=
  (s.quakes.filter (fun q => q.region_id == rid)).length

/-! ### Query layer (`queries.py`) -/

/-- Output row of query 1 (`get_quakes_in_region`). -/
structure QuakeInRegionRow where
  quake_id : ℕ
  datetime : String
  magnitude : ℚ
  depth_km : ℚ
  latitude : ℚ
  longitude : ℚ
  place : String
  region_name : String
deriving DecidableEq

/-- Descending `ORDER BY datetime` comparison for query 1. -/
def byDatetimeDesc (a b : QuakeInRegionRow) : Prop :=
  b.datetime ≤ a.datetime

instance : DecidableRel byDatetimeDesc := fun a b =>
  inferInstanceAs (Decidable (b.datetime ≤ a.datetime))

instance : IsTotal QuakeInRegionRow byDatetimeDesc :=
  ⟨fun a b => le_total b.datetime a.datetime⟩

instance : IsTrans QuakeInRegionRow byDatetimeDesc :=
  ⟨fun _ _ _ hab hbc => le_trans hbc hab⟩

/-- Query 1: join `Earthquake × Region` on `region_id`, filter to the
requested region, order by `datetime` descending. -/
def get_quakes_in_region (s : Store) (rid : ℕ) : List QuakeInRegionRow :=
  List.insertionSort byDatetimeDesc
    (s.quakes.flatMap fun q =>
      (s.regions.filter fun r =>
          (q.region_id == r.region_id) && (r.region_id == rid)).map fun r =>
        ⟨q.quake_id, q.datetime, q.magnitude, q.depth_km, q.latitude,
          q.longitude, q.place, r.region_name⟩)

/-- Output row of query 2 (`get_avg_magnitude_in_region`). -/
structure AvgMagnitudeRow where
  region_id : ℕ
  region_name : String
  avg_magnitude : ℚ
deriving DecidableEq

/-- Query 2: join on `region_id`, group by region, `AVG(magnitude)`.
A group (hence a row) exists only when the region has at least one
joined earthquake. -/
def get_avg_magnitude_in_region (s : Store) (rid : ℕ) : List AvgMagnitudeRow :=
  s.regions.filterMap fun r =>
    if r.region_id = rid then
      let mags := (s.quakes.filter fun q => q.region_id == r.region_id).map
        fun q => q.magnitude
      if mags.length = 0 then none
      else some ⟨r.region_id, r.region_name, mags.sum / mags.length⟩
    else none

/-- Query 3 (`count_quakes_near_location`): count earthquakes inside the
inclusive bounding box of half-widths `lat_delta` / `lon_delta` centred
on the given point.  In the source both deltas default to 1.0 degree. -/
def count_quakes_near_location (s : Store) (lat_center lon_center : ℚ)
    (lat_delta lon_delta : ℚ) : ℕ :=
  (s.quakes.filter fun q =>
    lat_center - lat_delta ≤ q.latitude ∧ q.latitude ≤ lat_center + lat_delta ∧
    lon_center - lon_delta ≤ q.longitude ∧
    q.longitude ≤ lon_center + lon_delta).length

/-- Output row of queries 6 (`get_regions_with_min_quakes`). -/
structure RegionCountRow where
  region_id : ℕ
  region_name : String
  quake_count : ℕ
deriving DecidableEq

/-- Descending `ORDER BY quake_count` comparison for query 6. -/
def byCountDesc (a b : RegionCountRow) : Prop :=
  b.quake_count ≤ a.quake_count

instance : DecidableRel byCountDesc := fun a b =>
  inferInstanceAs (Decidable (b.quake_count ≤ a.quake_count))

instance : IsTotal RegionCountRow byCountDesc :=
  ⟨fun a b => Nat.le_total b.quake_count a.quake_count⟩

instance : IsTrans RegionCountRow byCountDesc :=
  ⟨fun _ _ _ hab hbc => Nat.le_trans hbc hab⟩

/-- Query 6: join on `region_id`, group by region (a group exists only
for regions with at least one quake), `HAVING COUNT > min_quakes`
(strict), order by count descending. -/
def get_regions_with_min_quakes (s : Store) (min_quakes : ℕ) :
    List RegionCountRow :=
  List.insertionSort byCountDesc
    (((s.regions.filter fun r => 0 < regionQuakeCount s r.region_id).map
        fun r =>
          RegionCountRow.mk r.region_id r.region_name
            (regionQuakeCount s r.region_id)).filter
      fun g => min_quakes < g.quake_count)

/-- Query 7 CTE `region_counts`: the distinct `region_id`s appearing in
`Earthquake`, each paired with its row count. -/
def regionCounts (s : Store) : List (ℕ × ℕ) :=
  ((s.quakes.map fun q => q.region_id).dedup).map
    fun rid => (rid, regionQuakeCount s rid)

/-- Query 7 CTE `avg_count`: the average of the per-region counts, one
data point per region that has at least one earthquake. -/
def avgQuakes (s : Store) : ℚ :=
  ((regionCounts s).map fun p => (p.2 : ℚ)).sum / (regionCounts s).length

/-- Output row of query 7 (`get_regions_above_average_quakes`). -/
structure AboveAvgRow where
  region_id : ℕ
  region_name : String
  quake_count : ℕ
  avg_quakes : ℚ
deriving DecidableEq

/-- Descending `ORDER BY quake_count` comparison for query 7. -/
def byAvgCountDesc (a b : AboveAvgRow) : Prop :=
  b.quake_count ≤ a.quake_count

instance : DecidableRel byAvgCountDesc := fun a b =>
  inferInstanceAs (Decidable (b.quake_count ≤ a.quake_count))

instance : IsTotal AboveAvgRow byAvgCountDesc :=
  ⟨fun a b => Nat.le_total b.quake_count a.quake_count⟩

instance : IsTrans AboveAvgRow byAvgCountDesc :=
  ⟨fun _ _ _ hab hbc => Nat.le_trans hbc hab⟩

/-- Query 7: join `region_counts` with `Region`, keep regions whose
count is strictly greater than the average of the per-region counts,
order by count descending. -/
def get_regions_above_average_quakes (s : Store) : List AboveAvgRow :=
  List.insertionSort byAvgCountDesc
    (((regionCounts s).flatMap fun p =>
        (s.regions.filter fun r => r.region_id == p.1).map fun r =>
          AboveAvgRow.mk r.region_id r.region_name p.2 (avgQuakes s)).filter
      fun row => avgQuakes s < (row.quake_count : ℚ))

/-- Output row of query 10 (`get_region_risk_summary`). -/
structure RiskSummaryRow where
  region_id : ℕ
  region_name : String
  country : String
  population : Option ℕ
  zone_id : ℕ
  zone_name : String
  risk_level : ℕ
  quake_count : ℕ
  avg_magnitude : ℚ
  max_magnitude : ℚ
deriving DecidableEq

/-- `MAX` over a list of magnitudes (used only on nonempty groups). -/
def qMax : List ℚ → ℚ
  | [] => 0
  | x :: xs => xs.foldl max x

/-- Query 10: three-way join `Region × Earthquake × SeismicZone`
filtered to one region, grouped by the region and zone attributes, with
`COUNT`, `AVG(magnitude)` and `MAX(magnitude)` per group. -/
def get_region_risk_summary (s : Store) (rid : ℕ) : List RiskSummaryRow :=
  s.regions.flatMap fun r =>
    if r.region_id = rid then
      s.zones.filterMap fun z =>
        let qs := s.quakes.filter fun q =>
          (q.region_id == r.region_id) && (q.zone_id == z.zone_id)
        if qs.length = 0 then none
        else some
          ⟨r.region_id, r.region_name, r.country, r.population,
            z.zone_id, z.zone_name, z.risk_level, qs.length,
            ((qs.map fun q => q.magnitude).sum) / qs.length,
            qMax (qs.map fun q => q.magnitude)⟩
    else []

/-! ### API surface (`main.py`) -/

/-- Outcome of an endpoint call: a payload, or an HTTP 404 with its
detail message (`HTTPException(status_code=404, detail=...)`). -/
inductive ApiResult (α : Type) where
  | ok : α → ApiResult α
  | notFound : String → ApiResult α
deriving DecidableEq

/-- Whether an endpoint call signalled HTTP 404. -/
def ApiResult.isNotFound {α : Type} : ApiResult α → Bool
  | .ok _ => false
  | .notFound _ => true

/-- Endpoint for query 1 (`/regions/{region_id}/earthquakes`): raises a
404 when the region has no earthquakes, otherwise returns the rows. -/
def api_quakes_in_region (s : Store) (rid : ℕ) :
    ApiResult (List QuakeInRegionRow) :=
  let data := get_quakes_in_region s rid
  if data.isEmpty then
    .notFound ("No earthquakes found for region_id=" ++ toString rid ++ ".")
  else .ok data

/-- Endpoint for query 2 (`/regions/{region_id}/stats/avg-magnitude`):
raises a 404 when the query result is empty; otherwise re-runs the query
and returns its full result list, as the source does. -/
def api_avg_magnitude (s : Store) (rid : ℕ) :
    ApiResult (List AvgMagnitudeRow) :=
  let results := get_avg_magnitude_in_region s rid
  if results.isEmpty then
    .notFound ("No earthquakes found to compute average for region_id=" ++
      toString rid ++ ".")
  else .ok (get_avg_magnitude_in_region s rid)

/-- Endpoint for query 3 (`/analytics/nearby`): passes `radius_km`
positionally as `lat_delta`, leaving `lon_delta` at its default of 1.0
degrees. -/
def api_quakes_near_location (s : Store) (lat lon radius_km : ℚ) : ℕ :=
  count_quakes_near_location s lat lon radius_km 1

/-- Endpoint for query 10 (`/regions/{region_id}/risk-summary`): raises
a 404 when the query result is empty, otherwise returns its first row. -/
def api_region_risk_summary (s : Store) (rid : ℕ) :
    ApiResult RiskSummaryRow :=
  match get_region_risk_summary s rid with
  | [] => .notFound ("No risk summary available for region_id=" ++
      toString rid ++ ".")
  | row :: _ => .ok row

/-! ### Loader (`fetch_data.py`, `fetch_and_load`) -/

/-- One feed feature: optional geometry coordinates
`[lon, lat, depth_km]` (entries may individually be null), and the
`mag` / `time` / `place` properties. -/
structure Feature where
  coordinates : Option (List (Option ℚ))
  mag : Option ℚ
  time : Option ℤ
  place : Option String
deriving DecidableEq

/-- One inserted `Earthquake` row as built by the loader loop (the
surrogate key and formatted timestamp string are assigned downstream;
the raw epoch-millisecond time is kept here). -/
structure LoadedRow where
  magnitude : ℚ
  time_ms : ℤ
  depth_km : ℚ
  latitude : ℚ
  longitude : ℚ
  place : String
  region_id : ℕ
  zone_id : ℕ
deriving DecidableEq

/-- Decidable equality of `Except` outcomes, for evaluating the loader
on concrete batches. -/
def exceptDecEq {ε α : Type} [DecidableEq ε] [DecidableEq α] :
    DecidableEq (Except ε α)
  | .error x, .error y =>
    if h : x = y then .isTrue (congrArg Except.error h)
    else .isFalse (fun hc => h (Except.error.inj hc))
  | .ok x, .ok y =>
    if h : x = y then .isTrue (congrArg Except.ok h)
    else .isFalse (fun hc => h (Except.ok.inj hc))
  | .error _, .ok _ => .isFalse (fun hc => Except.noConfusion hc)
  | .ok _, .error _ => .isFalse (fun hc => Except.noConfusion hc)

instance {ε α : Type} [DecidableEq ε] [DecidableEq α] :
    DecidableEq (Except ε α) := exceptDecEq

/-- `props.get("place") or "Unknown location"`: Python `or` falls back
on both a missing and an empty place string. -/
def placeTextOf (f : Feature) : String :=
  match f.place with
  | none => "Unknown location"
  | some s => if s = "" then "Unknown location" else s

/-- `place_text.replace(",", " - ")`: every comma becomes " - ". -/
def replaceCommas (s : String) : String :=
  String.mk (s.data.flatMap fun c => if c = ',' then [' ', '-', ' '] else [c])

/-- The per-feature body of the loader loop: `ok none` when the feature
is skipped by a `continue`, `ok (some row)` when a row is inserted, and
`error` for the `TypeError` Python would raise converting a null depth
with `float`. -/
def processFeature (f : Feature) : Except String (Option LoadedRow) :=
  match f.coordinates with
  | none => .ok none
  | some (lonO :: latO :: depthO :: _) =>
    match f.mag, f.time, latO, lonO with
    | some m, some t, some la, some lo =>
      match depthO with
      | none => .error "TypeError: float() argument is None"
      | some d =>
        .ok (some
          { magnitude := m, time_ms := t, depth_km := d, latitude := la,
            longitude := lo, place := replaceCommas (placeTextOf f),
            region_id := classify_region la lo,
            zone_id := classify_zone la lo })
    | _, _, _, _ => .ok none
  | some _ => .ok none

/-- The loader loop of `fetch_and_load` over one fetched batch: the
list of rows inserted into `Earthquake`, in feed order, or the first
error. -/
def fetch_and_load : List Feature → Except String (List LoadedRow)
  | [] => .ok []
  | f :: fs =>
    match processFeature f with
    | .error e => .error e
    | .ok none => fetch_and_load fs
    | .ok (some row) =>
      match fetch_and_load fs with
      | .error e => .error e
      | .ok rows => .ok (row :: rows)

/-- The skip condition of the loader loop, as the spec states it: the
coordinates are absent or have fewer than 3 components, or the
magnitude, time, latitude or longitude is missing. -/
def featureSkipped (f : Feature) : Prop :=
  f.coordinates = none ∨
  (∃ cs, f.coordinates = some cs ∧ cs.length < 3) ∨
  f.mag = none ∨ f.time = none ∨
  (∃ lonO latO depthO rest,
    f.coordinates = some (lonO :: latO :: depthO :: rest) ∧
    (latO = none ∨ lonO = none))

/-! ### Lookup-table seeding (`fetch_data.py`, `seed_lookup_tables`) -/

/-- `INSERT OR IGNORE`: append the row unless its primary key is
already present. -/
def insertOrIgnore {α : Type} (tbl : List (ℕ × α)) (row : ℕ × α) :
    List (ℕ × α) :=
  if tbl.any (fun r => r.1 == row.1) then tbl else tbl ++ [row]

/-- `executemany` of `INSERT OR IGNORE` over a row list. -/
def insertOrIgnoreMany {α : Type} (tbl : List (ℕ × α))
    (rows : List (ℕ × α)) : List (ℕ × α) :=
  rows.foldl insertOrIgnore tbl

/-- The fixed `Region` reference rows seeded by `seed_lookup_tables`:
primary key, name, country, population. -/
def regionSeedRows : List (ℕ × String × String × Option ℕ) :=
  [(1, "California Margin", "USA", some 39200000),
   (2, "Alaska–Aleutian Margin", "USA", some 733000),
   (3, "NW Pacific Margin (Japan/Russia)", "Japan + Russian Far East",
     some (125700000 + 6300000)),
   (4, "Chile Subduction Zone", "Chile", some 19600000),
   (5, "Indonesia–Philippines–PNG Arc", "Indonesia + Philippines + PNG",
     some (277500000 + 117300000 + 9700000)),
   (6, "New Zealand & SW Pacific", "NZ + Fiji + Tonga + Samoa",
     some (5200000 + 940000 + 107000 + 225000)),
   (7, "Mediterranean Region", "Turkey + Greece + Italy + Balkans",
     some (85000000 + 10300000 + 58900000 + 18000000)),
   (8, "Himalaya–Central Asia Belt",
     "India North + Nepal + Pakistan North + China West",
     some (600000000 + 30300000 + 70000000 + 95000000)),
   (9, "North Mid-Atlantic Ridge", "Oceanic", none),
   (10, "Other", "Various", none)]

/-- The fixed `SeismicZone` reference rows: primary key, name, risk. -/
def zoneSeedRows : List (ℕ × String × ℕ) :=
  [(1, "US Pacific Subduction Margin", 5),
   (2, "Japan Trench Zone", 5),
   (3, "Andean Subduction Zone", 5),
   (4, "Sunda Arc (Indonesia)", 5),
   (5, "New Zealand Plate Boundary", 4),
   (6, "Mediterranean Collision/Subduction", 4),
   (7, "Himalayan Collision Belt", 4),
   (8, "Mid-Atlantic Ridge", 3),
   (9, "Kuril–Kamchatka Subduction Zone", 5),
   (10, "Other Oceanic Zone", 2)]

/-- The two lookup tables touched by `seed_lookup_tables`. -/
structure LookupDB where
  regionTable : List (ℕ × String × String × Option ℕ)
  zoneTable : List (ℕ × String × ℕ)
deriving DecidableEq

/-- `seed_lookup_tables`: `INSERT OR IGNORE` the fixed reference rows
into `Region` and `SeismicZone`. -/
def seed_lookup_tables (db : LookupDB) : LookupDB :=
  ⟨insertOrIgnoreMany db.regionTable regionSeedRows,
    insertOrIgnoreMany db.zoneTable zoneSeedRows⟩

/-- A freshly created database with both lookup tables empty. -/
def emptyLookupDB : LookupDB := ⟨[], []⟩

/-! ### Concrete stores and batches used as test inputs -/

/-- An `Earthquake` row with the given coordinates and ids, and fixed
values for the fields the queries under test do not inspect. -/
def mkQuake (lat lon : ℚ) (rid zid : ℕ) : QuakeRow :=
  ⟨0, "2025-01-01 00:00:00", 5, 10, lat, lon, "somewhere", rid, zid⟩

/-- A store whose single region has no earthquakes. -/
def emptyRegionStore : Store :=
  ⟨[⟨1, "California Margin", "USA", some 39200000⟩], [], []⟩

/-- A store with one quake at latitude 0, longitude 5. -/
def lonOffsetStore : Store :=
  ⟨[⟨10, "Other", "Various", none⟩], [], [mkQuake 0 5 10 10]⟩

/-- A store with one quake at latitude 5, longitude 0. -/
def latOffsetStore : Store :=
  ⟨[⟨10, "Other", "Various", none⟩], [], [mkQuake 5 0 10 10]⟩

/-- Three seeded regions with quake counts 10, 20 and 30. -/
def threeRegionStore : Store :=
  ⟨[⟨1, "California Margin", "USA", some 39200000⟩,
    ⟨2, "Alaska–Aleutian Margin", "USA", some 733000⟩,
    ⟨4, "Chile Subduction Zone", "Chile", some 19600000⟩],
   [⟨1, "US Pacific Subduction Margin", 5⟩],
   List.replicate 10 (mkQuake 35 (-120) 1 1) ++
     List.replicate 20 (mkQuake 60 (-150) 2 1) ++
     List.replicate 30 (mkQuake (-30) (-70) 4 1)⟩

/-- A store with two regions: one with exactly two quakes, one with
five. -/
def minQuakesStore : Store :=
  ⟨[⟨1, "California Margin", "USA", some 39200000⟩,
    ⟨2, "Alaska–Aleutian Margin", "USA", some 733000⟩],
   [],
   List.replicate 2 (mkQuake 35 (-120) 1 1) ++
     List.replicate 5 (mkQuake 60 (-150) 2 1)⟩

/-- The three-feature fixture: a complete Californian event, an event
with a missing magnitude, and a complete Japanese event with no place
description. -/
def fixtureBatch : List Feature :=
  [⟨some [some (-120), some 35, some 10], some 5, some 1000,
     some "Central,CA"⟩,
   ⟨some [some 140, some 36, some 30], none, some 1500, some "off Honshu"⟩,
   ⟨some [some 140, some 36, some 30], some 6, some 2000, none⟩]

end Earthquakes

namespace Earthquakes

/-- The box chain of `classify_region` only returns pre-seeded ids. -/
theorem classifyRegionCore_mem (lat lon : ℚ) :
    classifyRegionCore lat lon ∈ seededIds := by
  unfold classifyRegionCore
  split_ifs <;> decide

/-- The box chain of `classify_zone` only returns pre-seeded ids. -/
theorem classify_zone_mem (lat lon : ℚ) :
    classify_zone lat lon ∈ seededIds := by
  unfold classify_zone
  split_ifs <;> decide

/-- C1: for every latitude and longitude, `classify_region` and
`classify_zone` terminate with an id in the pre-seeded id space
`{1, ..., 10}`, and both are deterministic: equal inputs give equal
outputs. -/
theorem classifiers_total_and_deterministic :
    (∀ lat lon : ℚ, classify_region lat lon ∈ seededIds ∧
      classify_zone lat lon ∈ seededIds) ∧
    (∀ lat lon lat' lon' : ℚ, lat = lat' → lon = lon' →
      classify_region lat lon = classify_region lat' lon' ∧
      classify_zone lat lon = classify_zone lat' lon') := by
  constructor
  · intro lat lon
    exact ⟨classifyRegionCore_mem lat (normalizeLon lon), classify_zone_mem lat lon⟩
  · intro lat lon lat' lon' hlat hlon
    subst hlat; subst hlon; exact ⟨rfl, rfl⟩

/-- Witness for C1 at a concrete input. -/
theorem classifiers_total_and_deterministic_witness :
    classify_region 35 (-120) ∈ seededIds ∧
      classify_region 35 (-120) = classify_region 35 (-120) :=
  ⟨(classifiers_total_and_deterministic.1 35 (-120)).1,
    (classifiers_total_and_deterministic.2 35 (-120) 35 (-120) rfl rfl).1⟩

/-- C2 counterexample: at the boundary longitude `-180`, shifting by 360
gives longitude 180, which the source does not normalize, and the two
calls disagree (Alaska box 2 versus catch-all 10). -/
theorem classify_region_shift_fails_at_neg180 :
    (-180 : ℚ) ∈ Set.Icc (-180 : ℚ) 180 ∧
      classify_region 50 ((-180) + 360) ≠ classify_region 50 (-180) := by
  constructor
  · constructor <;> norm_num
  · have h1 : classify_region 50 ((-180) + 360) = 10 := by
      norm_num [classify_region, classifyRegionCore, normalizeLon]
    have h2 : classify_region 50 (-180) = 2 := by
      norm_num [classify_region, classifyRegionCore, normalizeLon]
    rw [h1, h2]; decide

/-- C2 amended: for every latitude and every longitude strictly greater
than -180 and at most 180, `classify_region(lat, lon + 360)` equals
`classify_region(lat, lon)`. -/
theorem classify_region_lon_shift (lat lon : ℚ)
    (h1 : -180 < lon) (h2 : lon ≤ 180) :
    classify_region lat (lon + 360) = classify_region lat lon := by
  unfold classify_region normalizeLon
  have ha : lon + 360 > 180 := by linarith
  have hb : ¬ lon > 180 := by linarith
  rw [if_pos ha, if_neg hb]
  norm_num

/-- Witness for the amended C2 at a concrete input. -/
theorem classify_region_lon_shift_witness :
    classify_region 35 ((-120) + 360) = classify_region 35 (-120) :=
  classify_region_lon_shift 35 (-120) (by norm_num) (by norm_num)

/-- C3: the point (30, -110), exactly on the edge of the first
(California) box, classifies as region 1; boundaries are inclusive and
the first matching box in declaration order wins. -/
theorem classify_region_boundary_inclusive :
    classify_region 30 (-110) = 1 := by decide

/-- C9: the nearby endpoint applies `radius_km` as the latitude delta
only: the counted window is latitude in `[lat - radius_km, lat + radius_km]`
and longitude in the fixed default window `[lon - 1, lon + 1]`; a quake
5 degrees east of the centre is missed at `radius_km = 10` while a quake
5 degrees north of the centre is counted. -/
theorem api_nearby_radius_is_lat_delta_only :
    (∀ (s : Store) (lat lon radius_km : ℚ),
      api_quakes_near_location s lat lon radius_km =
        (s.quakes.filter fun q =>
          lat - radius_km ≤ q.latitude ∧ q.latitude ≤ lat + radius_km ∧
          lon - 1 ≤ q.longitude ∧ q.longitude ≤ lon + 1).length) ∧
    api_quakes_near_location lonOffsetStore 0 0 10 = 0 ∧
    api_quakes_near_location latOffsetStore 0 0 10 = 1 := by
  refine ⟨fun s lat lon r => rfl, ?_, ?_⟩ <;>
    norm_num [api_quakes_near_location, count_quakes_near_location,
      lonOffsetStore, latOffsetStore, mkQuake, List.filter_cons]

/-- C4: query 6 compares per-region counts with a strict `>`: a region
in the store whose quake count is exactly `min_quakes` (at least 1, as
the endpoint requires) is absent from
`get_regions_with_min_quakes min_quakes` but present in
`get_regions_with_min_quakes (min_quakes - 1)`, and every result is
ordered by count descending. -/
theorem get_regions_with_min_quakes_strict :
    (∀ (s : Store) (r : RegionRow) (m : ℕ), r ∈ s.regions →
      regionQuakeCount s r.region_id = m → 1 ≤ m →
        (∀ row ∈ get_regions_with_min_quakes s m,
          row.region_id ≠ r.region_id) ∧
        (∃ row ∈ get_regions_with_min_quakes s (m - 1),
          row.region_id = r.region_id)) ∧
    (∀ (s : Store) (n : ℕ),
      (get_regions_with_min_quakes s n).Sorted byCountDesc) := by
  constructor
  · intro s r m hr hc hm
    constructor
    · intro row hrow heq
      rw [get_regions_with_min_quakes, List.mem_insertionSort,
        List.mem_filter] at hrow
      obtain ⟨hmem, hlt⟩ := hrow
      rw [List.mem_map] at hmem
      obtain ⟨r', _, hrow_eq⟩ := hmem
      rw [decide_eq_true_eq] at hlt
      rw [← hrow_eq] at heq hlt
      simp only at heq hlt
      rw [heq, hc] at hlt
      exact lt_irrefl m hlt
    · refine ⟨⟨r.region_id, r.region_name, m⟩, ?_, rfl⟩
      rw [get_regions_with_min_quakes, List.mem_insertionSort,
        List.mem_filter]
      constructor
      · rw [List.mem_map]
        refine ⟨r, ?_, by rw [hc]⟩
        rw [List.mem_filter]
        exact ⟨hr, by rw [decide_eq_true_eq, hc]; omega⟩
      · simp only [decide_eq_true_eq]
        omega
  · intro s n
    exact List.sorted_insertionSort byCountDesc _

/-- Witness for C4 on a concrete store: the region with exactly 2
quakes is absent at `min_quakes = 2` and present at `min_quakes = 1`. -/
theorem get_regions_with_min_quakes_strict_witness :
    (∀ row ∈ get_regions_with_min_quakes minQuakesStore 2,
      row.region_id ≠ 1) ∧
    (∃ row ∈ get_regions_with_min_quakes minQuakesStore 1,
      row.region_id = 1) :=
  get_regions_with_min_quakes_strict.1 minQuakesStore
    ⟨1, "California Margin", "USA", some 39200000⟩ 2
    (by decide) (by decide) (by decide)

/-- C10: `classify_zone` performs no longitude normalization:
`classify_zone(0, -30)` hits the Mid-Atlantic Ridge box (id 8) while
`classify_zone(0, 330)` falls through to the catch-all id 10, so the
360-degree shift changes the result for a longitude inside
[-180, 180]. -/
theorem classify_zone_no_lon_normalization :
    classify_zone 0 (-30) = 8 ∧ classify_zone 0 330 = 10 ∧
      classify_zone 0 ((-30) + 360) ≠ classify_zone 0 (-30) := by
  refine ⟨by decide, by decide, ?_⟩
  norm_num
  decide

/-- A key already present in a table stays present after an
`INSERT OR IGNORE`. -/
theorem any_key_insertOrIgnore_mono {α : Type} (t : List (ℕ × α))
    (row : ℕ × α) (k : ℕ) (h : t.any (fun r => r.1 == k) = true) :
    (insertOrIgnore t row).any (fun r => r.1 == k) = true := by
  unfold insertOrIgnore
  split
  · exact h
  · rw [List.any_append]
    exact Bool.or_eq_true_iff.mpr (Or.inl h)

/-- After `INSERT OR IGNORE` of a row, its key is present. -/
theorem any_key_insertOrIgnore_self {α : Type} (t : List (ℕ × α))
    (row : ℕ × α) :
    (insertOrIgnore t row).any (fun r => r.1 == row.1) = true := by
  unfold insertOrIgnore
  split
  · assumption
  · rw [List.any_append]
    refine Bool.or_eq_true_iff.mpr (Or.inr ?_)
    simp

/-- A key already present stays present across a whole
`INSERT OR IGNORE` batch. -/
theorem any_key_insertOrIgnoreMany_mono {α : Type} (rows : List (ℕ × α)) :
    ∀ (t : List (ℕ × α)) (k : ℕ), t.any (fun r => r.1 == k) = true →
      (insertOrIgnoreMany t rows).any (fun r => r.1 == k) = true := by
  induction rows with
  | nil => intro t k h; exact h
  | cons row rows ih =>
    intro t k h
    exact ih (insertOrIgnore t row) k (any_key_insertOrIgnore_mono t row k h)

/-- After an `INSERT OR IGNORE` batch, the key of every batch row is
present. -/
theorem any_key_insertOrIgnoreMany_of_mem {α : Type} (rows : List (ℕ × α)) :
    ∀ (t : List (ℕ × α)) (row : ℕ × α), row ∈ rows →
      (insertOrIgnoreMany t rows).any (fun r => r.1 == row.1) = true := by
  induction rows with
  | nil => intro t row h; cases h
  | cons row' rows ih =>
    intro t row h
    rcases List.mem_cons.mp h with heq | hmem
    · subst heq
      exact any_key_insertOrIgnoreMany_mono rows (insertOrIgnore t row)
        row.1 (any_key_insertOrIgnore_self t row)
    · exact ih (insertOrIgnore t row') row hmem

/-- An `INSERT OR IGNORE` batch whose keys are all already present
changes nothing. -/
theorem insertOrIgnoreMany_of_keys_present {α : Type} (rows : List (ℕ × α)) :
    ∀ t : List (ℕ × α),
      (∀ row ∈ rows, t.any (fun r => r.1 == row.1) = true) →
      insertOrIgnoreMany t rows = t := by
  induction rows with
  | nil => intro t _; rfl
  | cons row rows ih =>
    intro t h
    have h1 : insertOrIgnore t row = t := by
      unfold insertOrIgnore
      rw [if_pos (h row (List.mem_cons_self row rows))]
    show insertOrIgnoreMany (insertOrIgnore t row) rows = t
    rw [h1]
    exact ih t (fun r hr => h r (List.mem_cons_of_mem row hr))

/-- Existing rows survive an `INSERT OR IGNORE` batch untouched. -/
theorem mem_insertOrIgnoreMany_of_mem {α : Type} (rows : List (ℕ × α)) :
    ∀ (t : List (ℕ × α)) (x : ℕ × α), x ∈ t →
      x ∈ insertOrIgnoreMany t rows := by
  induction rows with
  | nil => intro t x h; exact h
  | cons row rows ih =>
    intro t x h
    refine ih (insertOrIgnore t row) x ?_
    unfold insertOrIgnore
    split
    · exact h
    · exact List.mem_append_left _ h

/-- C8: `seed_lookup_tables` is idempotent: a second run on any store
leaves both lookup tables exactly as the first run left them; seeding a
fresh database yields 10 `Region` rows and 10 `SeismicZone` rows; and
every pre-existing row survives a seeding run unmodified (no overwrite
on primary-key conflict). -/
theorem seed_lookup_tables_idempotent :
    (∀ db : LookupDB,
      seed_lookup_tables (seed_lookup_tables db) = seed_lookup_tables db) ∧
    ((seed_lookup_tables emptyLookupDB).regionTable.length = 10 ∧
      (seed_lookup_tables emptyLookupDB).zoneTable.length = 10) ∧
    (∀ (db : LookupDB) (row : ℕ × String × String × Option ℕ),
      row ∈ db.regionTable → row ∈ (seed_lookup_tables db).regionTable) ∧
    (∀ (db : LookupDB) (row : ℕ × String × ℕ),
      row ∈ db.zoneTable → row ∈ (seed_lookup_tables db).zoneTable) := by
  refine ⟨?_, ⟨by decide, by decide⟩, ?_, ?_⟩
  · intro db
    have h1 : insertOrIgnoreMany
        (insertOrIgnoreMany db.regionTable regionSeedRows) regionSeedRows =
        insertOrIgnoreMany db.regionTable regionSeedRows :=
      insertOrIgnoreMany_of_keys_present regionSeedRows _
        (fun row hrow => any_key_insertOrIgnoreMany_of_mem regionSeedRows
          db.regionTable row hrow)
    have h2 : insertOrIgnoreMany
        (insertOrIgnoreMany db.zoneTable zoneSeedRows) zoneSeedRows =
        insertOrIgnoreMany db.zoneTable zoneSeedRows :=
      insertOrIgnoreMany_of_keys_present zoneSeedRows _
        (fun row hrow => any_key_insertOrIgnoreMany_of_mem zoneSeedRows
          db.zoneTable row hrow)
    simp only [seed_lookup_tables]
    rw [h1, h2]
  · intro db row h
    simp only [seed_lookup_tables]
    exact mem_insertOrIgnoreMany_of_mem regionSeedRows db.regionTable row h
  · intro db row h
    simp only [seed_lookup_tables]
    exact mem_insertOrIgnoreMany_of_mem zoneSeedRows db.zoneTable row h

/-- The per-region counts of the three-region store: counts 10, 20 and
30 for regions 1, 2 and 4. -/
theorem regionCounts_threeRegionStore :
    regionCounts threeRegionStore = [(1, 10), (2, 20), (4, 30)] := by decide

/-- The average per-region count of the three-region store is 20. -/
theorem avgQuakes_threeRegionStore : avgQuakes threeRegionStore = 20 := by
  rw [avgQuakes, regionCounts_threeRegionStore]
  norm_num

/-- C5: query 7 averages over the per-region counts of the regions that
have at least one earthquake (zero-quake regions contribute nothing)
and returns exactly the regions whose count strictly exceeds that
average; on a store whose three regions have counts 10, 20 and 30 the
average is 20 and only the count-30 region is returned. -/
theorem get_regions_above_average_semantics :
    (∀ (s : Store) (r : RegionRow), r ∈ s.regions →
      ((∃ row ∈ get_regions_above_average_quakes s,
          row.region_id = r.region_id) ↔
        (0 < regionQuakeCount s r.region_id ∧
          avgQuakes s < (regionQuakeCount s r.region_id : ℚ)))) ∧
    (avgQuakes threeRegionStore = 20 ∧
      (get_regions_above_average_quakes threeRegionStore).map
        (fun row => row.region_id) = [4]) := by
  constructor
  · intro s r hr
    constructor
    · rintro ⟨row, hrow, hid⟩
      rw [get_regions_above_average_quakes, List.mem_insertionSort,
        List.mem_filter] at hrow
      obtain ⟨hmem, havg⟩ := hrow
      rw [List.mem_flatMap] at hmem
      obtain ⟨p, hp, hrowp⟩ := hmem
      rw [List.mem_map] at hrowp
      obtain ⟨r', hr', hrow_eq⟩ := hrowp
      rw [List.mem_filter, beq_iff_eq] at hr'
      rw [regionCounts, List.mem_map] at hp
      obtain ⟨rid, hrid, hpeq⟩ := hp
      rw [decide_eq_true_eq] at havg
      subst hrow_eq
      simp only at hid havg
      rw [List.mem_dedup, List.mem_map] at hrid
      obtain ⟨q, hq, hqid⟩ := hrid
      have hpid : p.1 = rid := by rw [← hpeq]
      have hpcount : p.2 = regionQuakeCount s rid := by rw [← hpeq]
      have hridr : rid = r.region_id := by
        rw [← hid, hr'.2, hpid]
      subst hridr
      constructor
      · rw [regionQuakeCount]
        refine List.length_pos_iff_exists_mem.mpr
          ⟨q, List.mem_filter.mpr ⟨hq, by simp [hqid]⟩⟩
      · rw [← hpcount]
        exact havg
    · rintro ⟨hpos, havg⟩
      rw [regionQuakeCount] at hpos
      obtain ⟨q, hqmem⟩ := List.length_pos_iff_exists_mem.mp hpos
      rw [List.mem_filter, beq_iff_eq] at hqmem
      obtain ⟨hqs, hqid⟩ := hqmem
      have hmemdedup : r.region_id ∈ (s.quakes.map fun q => q.region_id).dedup :=
        List.mem_dedup.mpr (List.mem_map.mpr ⟨q, hqs, hqid⟩)
      refine ⟨⟨r.region_id, r.region_name, regionQuakeCount s r.region_id,
        avgQuakes s⟩, ?_, rfl⟩
      rw [get_regions_above_average_quakes, List.mem_insertionSort,
        List.mem_filter]
      constructor
      · rw [List.mem_flatMap]
        refine ⟨(r.region_id, regionQuakeCount s r.region_id), ?_, ?_⟩
        · rw [regionCounts, List.mem_map]
          exact ⟨r.region_id, hmemdedup, rfl⟩
        · rw [List.mem_map]
          refine ⟨r, ?_, rfl⟩
          rw [List.mem_filter]
          exact ⟨hr, by simp⟩
      · simp only [decide_eq_true_eq]
        exact havg
  · refine ⟨avgQuakes_threeRegionStore, ?_⟩
    simp only [get_regions_above_average_quakes,
      regionCounts_threeRegionStore, avgQuakes_threeRegionStore]
    decide

/-- Witness for C5: on the three-region store, region 4 (count 30,
average 20) is returned by query 7. -/
theorem get_regions_above_average_semantics_witness :
    ∃ row ∈ get_regions_above_average_quakes threeRegionStore,
      row.region_id = (4 : ℕ) :=
  (get_regions_above_average_semantics.1 threeRegionStore
      ⟨4, "Chile Subduction Zone", "Chile", some 19600000⟩
      (by decide)).mpr
    ⟨by decide, by rw [avgQuakes_threeRegionStore]; decide⟩

/-- If no `Earthquake` row carries the requested region id, queries 1,
2 and 10 all return an empty row set. -/
theorem region_queries_empty_of_no_quakes (s : Store) (rid : ℕ)
    (h : s.quakes.filter (fun q => q.region_id == rid) = []) :
    get_quakes_in_region s rid = [] ∧
    get_avg_magnitude_in_region s rid = [] ∧
    get_region_risk_summary s rid = [] := by
  have hq : ∀ q ∈ s.quakes, ¬ q.region_id = rid := by
    intro q hqm heq
    have hmem : q ∈ s.quakes.filter (fun q => q.region_id == rid) :=
      List.mem_filter.mpr ⟨hqm, by simp [heq]⟩
    rw [h] at hmem
    exact List.not_mem_nil q hmem
  refine ⟨?_, ?_, ?_⟩
  · rw [get_quakes_in_region]
    have hnil : (s.quakes.flatMap fun q =>
        (s.regions.filter fun r =>
          (q.region_id == r.region_id) && (r.region_id == rid)).map fun r =>
          (⟨q.quake_id, q.datetime, q.magnitude, q.depth_km, q.latitude,
            q.longitude, q.place, r.region_name⟩ : QuakeInRegionRow)) = [] := by
      rw [List.flatMap_eq_nil_iff]
      intro q hqm
      have hfil : (s.regions.filter fun r =>
          (q.region_id == r.region_id) && (r.region_id == rid)) = [] := by
        rw [List.filter_eq_nil_iff]
        intro r _ hr
        rw [Bool.and_eq_true, beq_iff_eq, beq_iff_eq] at hr
        exact hq q hqm (hr.1.trans hr.2)
      rw [hfil, List.map_nil]
    rw [hnil]
    rfl
  · rw [get_avg_magnitude_in_region, List.filterMap_eq_nil_iff]
    intro r _
    by_cases hrid : r.region_id = rid
    · have hfil : (s.quakes.filter fun q => q.region_id == r.region_id) = [] := by
        rw [List.filter_eq_nil_iff]
        intro q hqm hqr
        rw [beq_iff_eq] at hqr
        exact hq q hqm (hqr.trans hrid)
      simp [hrid, hfil]
      exact hq
    · simp [hrid]
  · rw [get_region_risk_summary, List.flatMap_eq_nil_iff]
    intro r _
    by_cases hrid : r.region_id = rid
    · rw [if_pos hrid, List.filterMap_eq_nil_iff]
      intro z _
      have hfil : (s.quakes.filter fun q =>
          (q.region_id == r.region_id) && (q.zone_id == z.zone_id)) = [] := by
        rw [List.filter_eq_nil_iff]
        intro q hqm hqz
        rw [Bool.and_eq_true, beq_iff_eq, beq_iff_eq] at hqz
        exact hq q hqm (hqz.1.trans hrid)
      simp [hfil]
    · rw [if_neg hrid]

/-- C6 counterexample: on a store whose single region 1 has no
earthquakes, endpoint 1 (quakes in region) signals an HTTP 404 rather
than returning the empty collection the claim promises for it. -/
theorem api_quakes_in_region_404_on_empty :
    (api_quakes_in_region emptyRegionStore 1).isNotFound = true ∧
    api_quakes_in_region emptyRegionStore 1 ≠ ApiResult.ok [] := by
  constructor <;> decide

/-- C6 amended: all three region_id-parameterized endpoints — query 1
(quakes in region) as well as the single-record queries 2
(avg-magnitude) and 10 (risk-summary) — convert an empty result for a
region with zero earthquakes into a 404 not-found signal; the remaining
analytics endpoints (such as query 3, a total function into a count)
have no error outcome. -/
theorem api_region_endpoints_empty_not_found (s : Store) (rid : ℕ)
    (h : s.quakes.filter (fun q => q.region_id == rid) = []) :
    (api_quakes_in_region s rid).isNotFound = true ∧
    (api_avg_magnitude s rid).isNotFound = true ∧
    (api_region_risk_summary s rid).isNotFound = true := by
  obtain ⟨h1, h2, h3⟩ := region_queries_empty_of_no_quakes s rid h
  refine ⟨?_, ?_, ?_⟩
  · simp [api_quakes_in_region, h1, ApiResult.isNotFound]
  · simp [api_avg_magnitude, h2, ApiResult.isNotFound]
  · simp [api_region_risk_summary, h3, ApiResult.isNotFound]

/-- Witness for the amended C6 at a concrete store. -/
theorem api_region_endpoints_empty_not_found_witness :
    (api_quakes_in_region emptyRegionStore 1).isNotFound = true ∧
    (api_avg_magnitude emptyRegionStore 1).isNotFound = true ∧
    (api_region_risk_summary emptyRegionStore 1).isNotFound = true :=
  api_region_endpoints_empty_not_found emptyRegionStore 1 (by decide)

/-- C7: the loader skips a feature exactly when its coordinates are
absent or have fewer than 3 components or its magnitude, time, latitude
or longitude is missing; every other feature (with a numeric depth,
which the real feed guarantees) yields exactly one row whose place is
the comma-sanitized place text (defaulting to "Unknown location" when
absent) and whose region and zone ids come from the classifiers; the
3-feature fixture with one missing magnitude loads exactly 2 rows. -/
theorem fetch_and_load_row_semantics :
    (∀ f : Feature, processFeature f = .ok none ↔ featureSkipped f) ∧
    (∀ (f : Feature) (lo la d : ℚ) (rest : List (Option ℚ)) (m : ℚ) (t : ℤ),
      f.coordinates = some (some lo :: some la :: some d :: rest) →
      f.mag = some m → f.time = some t →
      processFeature f = .ok (some
        ⟨m, t, d, la, lo, replaceCommas (placeTextOf f),
          classify_region la lo, classify_zone la lo⟩)) ∧
    (∀ f : Feature, f.place = none → placeTextOf f = "Unknown location") ∧
    fetch_and_load fixtureBatch = .ok
      [⟨5, 1000, 10, 35, -120, "Central - CA", 1, 1⟩,
        ⟨6, 2000, 30, 36, 140, "Unknown location", 3, 2⟩] := by
  refine ⟨?_, ?_, ?_, ?_⟩
  · intro f
    obtain ⟨coords, mag, time, place⟩ := f
    cases coords with
    | none => simp [processFeature, featureSkipped]
    | some cs =>
      match cs with
      | [] => simp [processFeature, featureSkipped]
      | [a] => simp [processFeature, featureSkipped]
      | [a, b] => simp [processFeature, featureSkipped]
      | lonO :: latO :: depthO :: rest =>
        cases lonO <;> cases latO <;> cases mag <;> cases time <;>
          cases depthO <;> simp [processFeature, featureSkipped]
        all_goals exact Or.inr ⟨_, _, ⟨rfl, rfl⟩, by simp⟩
  · intro f lo la d rest m t h1 h2 h3
    obtain ⟨coords, mag, time, place⟩ := f
    simp only at h1 h2 h3
    subst h1; subst h2; subst h3
    rfl
  · intro f h
    rw [placeTextOf, h]
  · have hr1 : classify_region 35 (-120) = 1 := by decide
    have hz1 : classify_zone 35 (-120) = 1 := by
      norm_num [classify_zone]
    have hr3 : classify_region 36 140 = 3 := by decide
    have hz3 : classify_zone 36 140 = 2 := by
      norm_num [classify_zone]
    have hp1 : replaceCommas (placeTextOf
        ⟨some [some (-120), some 35, some 10], some 5, some 1000,
          some "Central,CA"⟩) = "Central - CA" := by decide
    have hp3 : replaceCommas (placeTextOf
        ⟨some [some 140, some 36, some 30], some 6, some 2000, none⟩) =
        "Unknown location" := by decide
    simp only [fetch_and_load, fixtureBatch, processFeature, placeTextOf,
      hr1, hz1, hr3, hz3]
    simp only [placeTextOf] at hp1 hp3
    rw [hp1, hp3]

/-- Witness for C7: the complete Californian fixture feature is loaded
with the classified region and zone ids and the sanitized place. -/
theorem fetch_and_load_row_semantics_witness :
    processFeature
        ⟨some [some (-120), some 35, some 10], some 5, some 1000,
          some "Central,CA"⟩ = .ok (some
      ⟨5, 1000, 10, 35, -120,
        replaceCommas (placeTextOf
          ⟨some [some (-120), some 35, some 10], some 5, some 1000,
            some "Central,CA"⟩),
        classify_region 35 (-120), classify_zone 35 (-120)⟩) :=
  fetch_and_load_row_semantics.2.1
    ⟨some [some (-120), some 35, some 10], some 5, some 1000,
      some "Central,CA"⟩
    (-120) 35 10 [] 5 1000 rfl rfl rfl

/-- Witness for C8: idempotence and row survival at a concrete
one-row database. -/
theorem seed_lookup_tables_idempotent_witness :
    seed_lookup_tables (seed_lookup_tables ⟨[(1, "x", "y", none)], []⟩) =
      seed_lookup_tables ⟨[(1, "x", "y", none)], []⟩ ∧
    (1, "x", "y", (none : Option ℕ)) ∈
      (seed_lookup_tables ⟨[(1, "x", "y", none)], []⟩).regionTable :=
  ⟨seed_lookup_tables_idempotent.1 ⟨[(1, "x", "y", none)], []⟩,
    seed_lookup_tables_idempotent.2.2.1 ⟨[(1, "x", "y", none)], []⟩
      (1, "x", "y", none) (by decide)⟩

end Earthquakes
